import Mathlib

/-!
# Verification of the `ConsortDiagram` diagram-state manager

Shallow embedding of `src/consort.py` (class `ConsortDiagram`): a bookkeeping
layer that tracks named boxes, stage boxes and "other data" tallies and
translates connection requests into draw calls on an external rendering
backend (schemdraw).

Modelling conventions:
- Python floats are modelled as exact rationals `ℚ` (none of the verified
  properties hinge on rounding).
- Python dicts are modelled as insertion-ordered association lists with the
  usual dict assignment semantics (`dinsert` overwrites in place).
- Python exceptions are modelled by returning the state reached when the
  exception is raised together with `some` error: stateful operations have
  type `... → ConsortState × Option PyError`; pure lookups return `Except`.
- The external drawing backend is out of scope (the spec treats it as a
  collaborator); it is abstracted as a `Backend` that assigns anchor
  coordinates to a placed box of a given size.  All theorems are
  parametric in the backend.
-/

namespace Consort

/-- A 2-D coordinate, as handed to / produced by the drawing backend. -/
structure Point where
  x : ℚ
  y : ℚ
deriving DecidableEq, Repr

/-- The four compass anchor directions `'E' | 'S' | 'W' | 'N'`. -/
inductive Dir where
  | E | S | W | N
deriving DecidableEq, Repr

/-- The four compass anchor points of a rendered box
(`obj.E`, `obj.S`, `obj.W`, `obj.N` in schemdraw). -/
structure Anchors where
  E : Point
  S : Point
  W : Point
  N : Point
deriving DecidableEq, Repr

/-- A rendered flow-box object (`flow.Box(...).label(...).at(...)`):
its backend-assigned anchor coordinates plus its label text. -/
structure BoxObj where
  anchors : Anchors
  labelText : String
deriving DecidableEq, Repr

/-- Model of `getattr(obj, d)` for a compass direction value `d : Dir`. -/
def BoxObj.anchor (b : BoxObj) : Dir → Point
  | .E => b.anchors.E
  | .S => b.anchors.S
  | .W => b.anchors.W
  | .N => b.anchors.N

/-- The string form of a compass direction literal. -/
def Dir.str : Dir → String
  | .E => "E"
  | .S => "S"
  | .W => "W"
  | .N => "N"

/-- Model of `getattr(obj, s)` for an arbitrary attribute-name string: `some` for the
four compass anchors, `none` (an `AttributeError`) otherwise. -/
def BoxObj.getAttr (b : BoxObj) (s : String) : Option Point :=
  if s = "E" then some b.anchors.E
  else if s = "S" then some b.anchors.S
  else if s = "W" then some b.anchors.W
  else if s = "N" then some b.anchors.N
  else none

/-- A Python runtime value appearing as a component of an `add_arrow`
endpoint tuple; `add_arrow` dispatches on `isinstance` checks for
`str` and `float` (a Python `int` is *not* a `float`). -/
inductive PyVal where
  | str (s : String)
  | float (q : ℚ)
  | int (n : ℤ)
deriving DecidableEq, Repr

/-- Model of `isinstance(v, str)`. -/
def PyVal.isStr : PyVal → Bool
  | .str _ => true
  | _ => false

/-- Model of `isinstance(v, float)`. -/
def PyVal.isFloat : PyVal → Bool
  | .float _ => true
  | _ => false

/-- The Python exceptions the embedded operations can raise. -/
inductive PyError where
  | keyError (k : String)
  | valueError (msg : String)
  | attributeError (a : String)
  | zeroDivisionError
deriving DecidableEq, Repr

/-- Direction of travel of a directional connector
(`.right() | .down() | .left() | .up()` in schemdraw). -/
inductive Travel where
  | right | down | left | up
deriving DecidableEq, Repr

/-- Horizontal vs vertical orientation of a connector. -/
inductive Orientation where
  | horizontal | vertical
deriving DecidableEq, Repr

/-- The orientation in which a travel direction moves. -/
def Travel.orientation : Travel → Orientation
  | .right => .horizontal
  | .left => .horizontal
  | .down => .vertical
  | .up => .vertical

/-- The orientation the spec associates with a compass direction:
E/W horizontal, N/S vertical. -/
def Dir.orientation : Dir → Orientation
  | .E => .horizontal
  | .W => .horizontal
  | .S => .vertical
  | .N => .vertical

/-- Shape data of an arrow/line drawable handed to the backend. -/
inductive ArrowShape where
  /-- Model of `.at(p).to(q)`: a segment with two explicit endpoints. -/
  | segment (fromP toP : Point)
  /-- Model of `.at(p).right()/down()/left()/up().length(len)`. -/
  | directional (atP : Point) (t : Travel) (len : ℚ)
  /-- Model of `.at(p).toy(q)`: vertical move to the y of the target. -/
  | vertTo (atP : Point) (target : Point)
  /-- Model of `.at(p).tox(q)`: horizontal move to the x of the target. -/
  | horizTo (atP : Point) (target : Point)
deriving DecidableEq, Repr

/-- An element added to the drawing canvas (`self.diagram.add(...)`). -/
inductive Element where
  | boxEl (b : BoxObj)
  | arrowEl (a : ArrowShape)
  | lineEl (a : ArrowShape)
deriving DecidableEq, Repr

/-- The external rendering backend, abstracted: given `w h x y` of a placed
box it yields the anchor coordinates of that box.  Out of scope for the spec,
so kept fully parametric. -/
structure Backend where
  boxAnchors : ℚ → ℚ → ℚ → ℚ → Anchors

/-- Python dict lookup `d[k]` / `k in d` on an association list. -/
def dlookup {α : Type} (d : List (String × α)) (k : String) : Option α :=
  match d with
  | [] => none
  | (k', v) :: rest => if k' = k then some v else dlookup rest k

/-- Python dict assignment `d[k] = v`: overwrite in place if the key is
present, else append (insertion order preserved, as in Python dicts). -/
def dinsert {α : Type} (d : List (String × α)) (k : String) (v : α) :
    List (String × α) :=
  match d with
  | [] => [(k, v)]
  | (k', v') :: rest =>
      if k' = k then (k, v) :: rest else (k', v') :: dinsert rest k v

/-- Model of `key.lower().replace(' ', '_')` — the key normalization used for the
`boxes_obj` / `stage_boxes_obj` namespaces (ASCII lowering). -/
def normalize (s : String) : String :=
  String.mk ((s.data.map Char.toLower).map (fun c => if c = ' ' then '_' else c))

/-- Python `s.split("--")` on the character list of `s`: splits at each
non-overlapping occurrence of `"--"`, left to right; always nonempty. -/
def pySplitDD : List Char → List String
  | [] => [""]
  | '-' :: '-' :: rest => "" :: pySplitDD rest
  | c :: rest =>
      match pySplitDD rest with
      | [] => [String.singleton c]
      | s :: ss => (String.singleton c ++ s) :: ss

/-- Python `"--" in s`: does `s` contain two adjacent dashes? -/
def hasDD : List Char → Bool
  | '-' :: '-' :: _ => true
  | _ :: rest => hasDD rest
  | [] => false

/-- The portion of a string strictly before its first occurrence of `"--"`
(the whole string when there is none), written as a direct scan.  This is
the spec's reading of "the portion of the key before the first `"--"`",
to be compared with the code's `key.split("--")[0]`. -/
def specNameBefore : List Char → String
  | [] => ""
  | '-' :: '-' :: _ => ""
  | c :: rest => String.singleton c ++ specNameBefore rest

/-- Model of the f-string label format (name before the first `"--"`, then
the count) shared
by `_create_box` and `update_label`. -/
def boxLabelText (label : String) (count : ℤ) : String :=
  (pySplitDD label.data).headD "" ++ " (n = " ++ toString count ++ ")"

/-- The label format as the spec words it: name before any `"--"`,
then `" (n = "`, the count, and `")"`. -/
def specLabelText (label : String) (count : ℤ) : String :=
  specNameBefore label.data ++ " (n = " ++ toString count ++ ")"

/-- The mutable state of a `ConsortDiagram` instance: the constructor
configuration plus the five bookkeeping dicts and the drawing canvas.
(`fontsize` and the input `DataFrame` are never consulted by the
operations and are omitted.) -/
structure ConsortState where
  unit : ℚ
  box_dimension : ℚ × ℚ
  stage_box_dimension : ℚ × ℚ
  stage_box_th : ℚ
  boxes_obj : List (String × BoxObj)
  stage_boxes_obj : List (String × BoxObj)
  boxes_data : List (String × (ℤ × ℚ × ℚ))
  stage_boxes_data : List (String × (ℚ × ℚ))
  other_data : List (String × List (String × List (String × ℕ)))
  drawing : List Element
deriving DecidableEq, Repr

/-- Model of `ConsortDiagram.__init__` with the default configuration
(`unit=1`, `box_dimension=(14,1)`, `stage_box_dimension=(3,1)`,
`stage_box_th=90.0`) and empty bookkeeping. -/
def consortInit : ConsortState :=
  { unit := 1
    box_dimension := (14, 1)
    stage_box_dimension := (3, 1)
    stage_box_th := 90
    boxes_obj := []
    stage_boxes_obj := []
    boxes_data := []
    stage_boxes_data := []
    other_data := []
    drawing := [] }

/-- Model of `self.diagram.add(el)`. -/
def pushEl (st : ConsortState) (el : Element) : ConsortState :=
  { st with drawing := st.drawing ++ [el] }

/-!  ## The operations of `ConsortDiagram`  -/

/-- Model of `ConsortDiagram._create_box(label, count, x, y, w, h)`: resolve `NaN`
dimensions to the configured defaults (`w`/`h` are `none` when the caller
left them at `np.nan`), format the label, and delegate rendering. -/
def _create_box (bk : Backend) (st : ConsortState) (label : String)
    (count : ℤ) (x y : ℚ) (w h : Option ℚ) : BoxObj :=
  let w := w.getD st.box_dimension.1
  let h := h.getD st.box_dimension.2
  { anchors := bk.boxAnchors w h x y
    labelText := boxLabelText label count }

/-- Model of `ConsortDiagram.add_consort_data(key, count, x, y, w, h)`: fails with
`ValueError` when the (raw) key is already in `boxes_data`; otherwise
records `[count, x, y]` under the raw key, renders a box, adds it to the
drawing, and registers it in `boxes_obj` under the normalized key. -/
def add_consort_data (bk : Backend) (st : ConsortState) (key : String)
    (count : ℤ) (x y : ℚ) (w h : Option ℚ) : ConsortState × Option PyError :=
  let w' := w.getD st.box_dimension.1
  let h' := h.getD st.box_dimension.2
  if (dlookup st.boxes_data key).isNone then
    let st1 := { st with boxes_data := dinsert st.boxes_data key (count, x, y) }
    let box := _create_box bk st key count x y (some w') (some h')
    let st2 := pushEl st1 (.boxEl box)
    let var_name := normalize key
    ({ st2 with boxes_obj := dinsert st2.boxes_obj var_name box }, none)
  else
    (st, some (.valueError (key ++ " already exists in consort_data.")))

/-- Model of `ConsortDiagram.add_arrow(start, end)`: dispatch on the `isinstance`
type combination of the two endpoint tuples; any combination matching none
of the four guarded branches falls through to the final `return`. -/
def add_arrow (st : ConsortState) (start «end» : PyVal × PyVal) :
    ConsortState × Option PyError :=
  match start.1, start.2, «end».1, «end».2 with
  | .str start1, .str start2, .str end1, .str end2 =>
      let start_var_name := normalize start1
      let end_var_name := normalize end1
      match dlookup st.boxes_obj start_var_name with
      | none => (st, some (.keyError start_var_name))
      | some start_obj =>
          match dlookup st.boxes_obj end_var_name with
          | none => (st, some (.keyError end_var_name))
          | some end_obj =>
              match start_obj.getAttr start2 with
              | none => (st, some (.attributeError start2))
              | some p1 =>
                  match end_obj.getAttr end2 with
                  | none => (st, some (.attributeError end2))
                  | some p2 => (pushEl st (.arrowEl (.segment p1 p2)), none)
  | .str start1, .str start2, .float end1, .float end2 =>
      let start_var_name := normalize start1
      match dlookup st.boxes_obj start_var_name with
      | none => (st, some (.keyError start_var_name))
      | some start_obj =>
          let arrow :=
            if start2 = "E" then
              ArrowShape.directional start_obj.anchors.E .right
                (|end1 - start_obj.anchors.E.x| / st.unit)
            else if start2 = "S" then
              ArrowShape.directional start_obj.anchors.S .down
                (|end2 - start_obj.anchors.S.y| / st.unit)
            else if start2 = "W" then
              ArrowShape.directional start_obj.anchors.W .left
                (|end1 - start_obj.anchors.W.x| / st.unit)
            else
              ArrowShape.directional start_obj.anchors.N .up
                (|end2 - start_obj.anchors.N.y| / st.unit)
          (pushEl st (.arrowEl arrow), none)
  | .float start1, .float start2, .str end1, .str end2 =>
      let end_var_name := normalize end1
      match dlookup st.boxes_obj end_var_name with
      | none => (st, some (.keyError end_var_name))
      | some end_obj =>
          let arrow :=
            if end2 = "E" then
              ArrowShape.directional ⟨start1, start2⟩ .left
                (|start1 - end_obj.anchors.E.x| / st.unit)
            else if end2 = "S" then
              ArrowShape.directional ⟨start1, start2⟩ .up
                (|start2 - end_obj.anchors.S.y| / st.unit)
            else if end2 = "W" then
              ArrowShape.directional ⟨start1, start2⟩ .right
                (|start1 - end_obj.anchors.W.x| / st.unit)
            else
              ArrowShape.directional ⟨start1, start2⟩ .down
                (|start2 - end_obj.anchors.N.y| / st.unit)
          (pushEl st (.arrowEl arrow), none)
  | .float start1, .float start2, .float end1, .float end2 =>
      if start1 = end1 then
        (pushEl st (.arrowEl (.vertTo ⟨start1, start2⟩ ⟨end1, end2⟩)), none)
      else if start2 = end2 then
        (pushEl st (.arrowEl (.horizTo ⟨start1, start2⟩ ⟨end1, end2⟩)), none)
      else
        (st, some (.valueError "Invalid start and end coordinates"))
  | _, _, _, _ => (st, none)

/-- Does an endpoint-component quadruple match one of the four supported
`isinstance` combinations of `add_arrow`? -/
def supportedCombo (a b c d : PyVal) : Bool :=
  (a.isStr && b.isStr && c.isStr && d.isStr) ||
  (a.isStr && b.isStr && c.isFloat && d.isFloat) ||
  (a.isFloat && b.isFloat && c.isStr && d.isStr) ||
  (a.isFloat && b.isFloat && c.isFloat && d.isFloat)

/-- Model of `ConsortDiagram.add_line(start_x, start_y, end_x, end_y)`. -/
def add_line (st : ConsortState) (start_x start_y end_x end_y : ℚ) :
    ConsortState × Option PyError :=
  if start_x = end_x then
    (pushEl st (.lineEl (.vertTo ⟨start_x, start_y⟩ ⟨end_x, end_y⟩)), none)
  else if start_y = end_y then
    (pushEl st (.lineEl (.horizTo ⟨start_x, start_y⟩ ⟨end_x, end_y⟩)), none)
  else
    (st, some (.valueError "Invalid start and end coordinates"))

/-- Model of `ConsortDiagram.get_coordinates(label, anchor)`: look the box up by
normalized label (`KeyError` when absent), then read the fields
`x` and `y` of the anchor attribute. -/
def get_coordinates (st : ConsortState) (label anchor : String) :
    Except PyError (ℚ × ℚ) :=
  let var_name := normalize label
  match dlookup st.boxes_obj var_name with
  | none => .error (.keyError var_name)
  | some flow_obj =>
      match flow_obj.getAttr anchor with
      | none => .error (.attributeError anchor)
      | some p => .ok (p.x, p.y)

/-- Model of `ConsortDiagram.update_label(key, count)`: look the box up by
normalized key (`KeyError` when absent), recompute the formatted label
and mutate the label text of the rendered object. -/
def update_label (st : ConsortState) (key : String) (count : ℤ) :
    ConsortState × Option PyError :=
  let var_name := normalize key
  match dlookup st.boxes_obj var_name with
  | none => (st, some (.keyError var_name))
  | some flow_obj =>
      let label_text := boxLabelText key count
      ({ st with boxes_obj :=
          dinsert st.boxes_obj var_name { flow_obj with labelText := label_text } },
        none)

/-- The three-level insert of `add_other_data` once `(data_type, data_set,
data_label)` are determined: rejects an exact duplicate triple with
`ValueError`, otherwise records `len(df)` at the triple. -/
def insertOtherTriple (st : ConsortState) (key data_type data_set data_label : String)
    (dfLen : ℕ) : ConsortState × Option PyError :=
  match dlookup st.other_data data_type with
  | none =>
      let od := dinsert st.other_data data_type [(data_set, [(data_label, dfLen)])]
      ({ st with other_data := od }, none)
  | some subsets =>
      match dlookup subsets data_set with
      | none =>
          let od := dinsert st.other_data data_type
            (dinsert subsets data_set [(data_label, dfLen)])
          ({ st with other_data := od }, none)
      | some reasons =>
          match dlookup reasons data_label with
          | none =>
              let od := dinsert st.other_data data_type
                (dinsert subsets data_set (dinsert reasons data_label dfLen))
              ({ st with other_data := od }, none)
          | some _ => (st, some (.valueError (key ++ " already exists.")))

/-- Model of `ConsortDiagram.add_other_data(data_type, key, df)`: when `"--" in key`,
`data_label, data_set = key.split("--")` — a two-name unpacking that raises
`ValueError` unless the split has exactly two parts; otherwise
`data_label = key`, `data_set` defaults to the string one.  The record count source `df` enters
only through `len(df)`. -/
def add_other_data (st : ConsortState) (data_type key : String) (dfLen : ℕ) :
    ConsortState × Option PyError :=
  if hasDD key.data then
    match pySplitDD key.data with
    | [data_label, data_set] => insertOtherTriple st key data_type data_set data_label dfLen
    | _ => (st, some (.valueError "too many values to unpack (expected 2)"))
  else
    insertOtherTriple st key data_type "1" key dfLen

/-- The accumulator of the aggregation loop of `_generate_other_box`:
`max_label_length`, `label` and `total_count` (initially zero, empty,
`None`). -/
structure GenAcc where
  max_label_length : ℕ
  label : String
  total_count : Option ℕ
deriving DecidableEq, Repr

/-- Python `str(v)` for the `total_count` variable (`None` or an int). -/
def pyStrOptNat : Option ℕ → String
  | none => "None"
  | some n => toString n

/-- The inner `for reason, count in value.items()` loop: append one
bulleted line per reason and track the longest line.  (The bullet prefix
is the byte sequence that appears literally in the source file.) -/
def reasonsFold (acc : GenAcc) (reasons : List (String × ℕ)) : GenAcc :=
  reasons.foldl
    (fun a rc =>
      let current_line := "â€¢ " ++ rc.1 ++ " (n = " ++ toString rc.2 ++ ")\n"
      { a with
          label := a.label ++ current_line
          max_label_length := max a.max_label_length current_line.length })
    acc

/-- The `for key, value in self.other_data.get(data_type, {}).items()` loop
body of `_generate_other_box` for one category: on the entry whose key is
`target_set`, set `total_count` to the sum of its reason counts, append the
header line and then the bulleted reason lines. -/
def subsetsFold (data_type target_set : String) (acc : GenAcc)
    (subsets : List (String × List (String × ℕ))) : GenAcc :=
  subsets.foldl
    (fun a kv =>
      if kv.1 = target_set then
        let total_count := (kv.2.map Prod.snd).sum
        let header := data_type ++ " (n = " ++ toString total_count ++ ")\n"
        reasonsFold
          { a with
              total_count := some total_count
              max_label_length := max a.max_label_length header.length
              label := a.label ++ header }
          kv.2
      else a)
    acc

/-- The whole aggregation loop of `_generate_other_box` over `data_types`. -/
def generateAcc (st : ConsortState) (data_types : List String)
    (target_set : String) : GenAcc :=
  data_types.foldl
    (fun a dt => subsetsFold dt target_set a ((dlookup st.other_data dt).getD []))
    ⟨0, "", none⟩

/-- Model of `len(label.split('\n')) - 1`: the number of newline characters. -/
def countNl (s : String) : ℕ :=
  (s.data.filter (fun c => c = '\n')).length

/-- Model of `parent_length`: the maximum, over `data_types`, of the length
of the per-category header line rendered with the final value of the
`total_count` variable. -/
def parentLength (data_types : List String) (tc : Option ℕ) : ℕ :=
  (data_types.map
    (fun dt => (dt ++ " (n = " ++ pyStrOptNat tc ++ ")\n").length)).foldl max 0

/-- Model of `ConsortDiagram._generate_other_box(data_types, target_set, x, y, w, h,
offset, ratio)`: aggregate the matching tallies into one label, then size
the box.  `max(...)` over an empty `data_types` raises `ValueError`;
`// ratio` with `ratio == 0` raises `ZeroDivisionError` (and so would an
empty `parent_length`, which cannot occur).  `parent_length` uses the final
value of `total_count` after the loop, as in the source. -/
def _generate_other_box (bk : Backend) (st : ConsortState)
    (data_types : List String) (target_set : String) (x y w h : ℚ)
    (ratio : ℚ) : Except PyError BoxObj :=
  let acc := generateAcc st data_types target_set
  match data_types with
  | [] => .error (.valueError "max() arg is an empty sequence")
  | _ =>
      let parent_length := parentLength data_types acc.total_count
      if parent_length = 0 ∨ ratio = 0 then .error .zeroDivisionError
      else
        let adj_w := max w ((⌊((acc.max_label_length / parent_length : ℕ) : ℚ) / ratio⌋ : ℚ) * w)
        let adj_h := max h ((⌊((countNl acc.label : ℚ)) / ratio⌋ : ℚ) * h)
        .ok { anchors := bk.boxAnchors adj_w adj_h x y, labelText := acc.label }

/-- Model of `ConsortDiagram.add_other_box(data_types, target_set, x, y, w, h,
offset, ratio)`: generate the aggregated box, add it to the drawing and
register it in `boxes_obj` under the derived key
`'_'.join(normalized categories) + '_' + target_set` — a plain dict
assignment with no duplicate-key check. -/
def add_other_box (bk : Backend) (st : ConsortState) (data_types : List String)
    (target_set : String) (x y : ℚ) (w h : Option ℚ) (ratio : ℚ) :
    ConsortState × Option PyError :=
  let w' := w.getD st.box_dimension.1
  let h' := h.getD st.box_dimension.2
  match _generate_other_box bk st data_types target_set x y w' h' ratio with
  | .error e => (st, some e)
  | .ok box =>
      let st1 := pushEl st (.boxEl box)
      let var_name :=
        String.intercalate "_" (data_types.map normalize) ++ "_" ++ target_set
      ({ st1 with boxes_obj := dinsert st1.boxes_obj var_name box }, none)

/-!  ## Derived observables  -/

/-- The recorded count at an `(category, subset, reason)` triple of the
`other_data` tally, when present. -/
def tripleCount (st : ConsortState) (cat subset reason : String) : Option ℕ :=
  match dlookup st.other_data cat with
  | none => none
  | some subsets =>
      match dlookup subsets subset with
      | none => none
      | some reasons => dlookup reasons reason

/-- One bulleted reason line of the aggregated other-data label. -/
def bulletLine (rc : String × ℕ) : String :=
  "â€¢ " ++ rc.1 ++ " (n = " ++ toString rc.2 ++ ")\n"

/-- The header line of the aggregated other-data label for one category. -/
def headerLine (dt : String) (total : ℕ) : String :=
  dt ++ " (n = " ++ toString total ++ ")\n"

/-- Keys of an association list are pairwise distinct — the invariant
Python dicts provide by construction. -/
def keysNodup {α : Type} (d : List (String × α)) : Prop :=
  (d.map Prod.fst).Nodup

instance {α : Type} (d : List (String × α)) : Decidable (keysNodup d) := by
  unfold keysNodup; infer_instance

/-- Concatenation of a list of label lines. -/
def joinLines : List String → String
  | [] => ""
  | s :: rest => s ++ joinLines rest

/-- The coordinate of a point relevant to the axis a compass direction
travels along: the `x`-coordinate for E/W, the `y`-coordinate for N/S. -/
def axisCoord (d : Dir) (x y : ℚ) : ℚ :=
  match d with
  | .E => x
  | .W => x
  | .S => y
  | .N => y

/-!  ## Concrete instances for exercising the parametric results  -/

/-- A concrete backend instance (anchors at the midpoints of the box
edges); the theorems below are parametric in the backend, this instance
only serves to evaluate them on concrete inputs. -/
def unitBackend : Backend where
  boxAnchors w h x y :=
    { E := ⟨x + w / 2, y⟩
      S := ⟨x, y - h / 2⟩
      W := ⟨x - w / 2, y⟩
      N := ⟨x, y + h / 2⟩ }

/-- A concrete rendered box. -/
def boxA : BoxObj :=
  { anchors := ⟨⟨1, 0⟩, ⟨0, -1⟩, ⟨-1, 0⟩, ⟨0, 1⟩⟩
    labelText := "Screened (n = 120)" }

/-- Another concrete rendered box. -/
def boxB : BoxObj :=
  { anchors := ⟨⟨2, -4⟩, ⟨0, -6⟩, ⟨-2, -4⟩, ⟨0, -2⟩⟩
    labelText := "Excluded (n = 30)" }

/-- A concrete diagram state with two registered boxes. -/
def stTwoBoxes : ConsortState :=
  { consortInit with
      boxes_obj := [("screened--a", boxA), ("excluded", boxB)]
      boxes_data := [("Screened--A", (120, 0, 10)), ("Excluded", (30, 0, 5))] }

/-- A concrete diagram state with one recorded tally triple. -/
def stOneTally : ConsortState :=
  { consortInit with other_data := [("Excl", [("1", [("old", 2)])])] }

/-!  ## Association-list lemmas  -/

theorem dlookup_dinsert_self {α : Type} (d : List (String × α)) (k : String)
    (v : α) : dlookup (dinsert d k v) k = some v := by
  induction d with
  | nil => simp [dinsert, dlookup]
  | cons p rest ih =>
      obtain ⟨k', v'⟩ := p
      by_cases h : k' = k <;> simp [dinsert, dlookup, h, ih]

theorem dlookup_dinsert_ne {α : Type} (d : List (String × α)) (k k' : String)
    (v : α) (h : k' ≠ k) : dlookup (dinsert d k v) k' = dlookup d k' := by
  have hne : k ≠ k' := Ne.symm h
  induction d with
  | nil => simp [dinsert, dlookup, hne]
  | cons p rest ih =>
      obtain ⟨k1, v1⟩ := p
      by_cases h1 : k1 = k
      · subst h1
        simp [dinsert, dlookup, hne]
      · simp [dinsert, dlookup, h1, ih]

theorem dinsert_of_lookup_none {α : Type} (d : List (String × α)) (k : String)
    (v : α) (h : dlookup d k = none) : dinsert d k v = d ++ [(k, v)] := by
  induction d with
  | nil => simp [dinsert]
  | cons p rest ih =>
      obtain ⟨k1, v1⟩ := p
      by_cases h1 : k1 = k
      · simp [dlookup, h1] at h
      · simp [dlookup, h1] at h
        simp [dinsert, h1, ih h]

theorem mem_keys_dinsert {α : Type} (d : List (String × α)) (k a : String)
    (v : α) (h : a ∈ (dinsert d k v).map Prod.fst) :
    a ∈ d.map Prod.fst ∨ a = k := by
  induction d with
  | nil => simpa [dinsert] using h
  | cons p rest ih =>
      obtain ⟨k1, v1⟩ := p
      by_cases h1 : k1 = k
      · subst h1
        simp [dinsert] at h
        simp only [List.map_cons, List.mem_cons]
        rcases h with h | h
        · exact Or.inl (Or.inl h)
        · obtain ⟨x, hx⟩ := h
          exact Or.inl (Or.inr (List.mem_map_of_mem Prod.fst hx))
      · simp only [dinsert, if_neg h1, List.map_cons, List.mem_cons] at h
        simp only [List.map_cons, List.mem_cons]
        rcases h with h | h
        · exact Or.inl (Or.inl h)
        · rcases ih h with h' | h'
          · exact Or.inl (Or.inr h')
          · exact Or.inr h'

theorem keysNodup_dinsert {α : Type} (d : List (String × α)) (k : String)
    (v : α) (h : keysNodup d) : keysNodup (dinsert d k v) := by
  induction d with
  | nil => simp [keysNodup, dinsert]
  | cons p rest ih =>
      obtain ⟨k1, v1⟩ := p
      simp only [keysNodup, List.map_cons, List.nodup_cons] at h
      by_cases h1 : k1 = k
      · subst h1
        simpa [keysNodup, dinsert] using h
      · have hrest := ih h.2
        simp only [keysNodup, dinsert, if_neg h1, List.map_cons, List.nodup_cons]
        refine ⟨fun hmem => ?_, hrest⟩
        rcases mem_keys_dinsert rest k k1 v hmem with h' | h'
        · exact h.1 h'
        · exact h1 h'

/-!  ## String-splitting lemmas  -/

theorem pySplitDD_ne_nil (l : List Char) : pySplitDD l ≠ [] := by
  induction l using pySplitDD.induct with
  | _ => simp_all [pySplitDD]

/-- The first component of the Python expression `s.split("--")` is exactly the portion
of `s` before the first occurrence of `"--"`. -/
theorem pySplitDD_headD (l : List Char) :
    (pySplitDD l).headD "" = specNameBefore l := by
  induction l using pySplitDD.induct with
  | _ => simp_all [pySplitDD, specNameBefore, pySplitDD_ne_nil]

/-- The two label formats — the split-based one of the code and the scan-based
one of the spec — agree on every key and count. -/
theorem boxLabelText_eq_spec (label : String) (count : ℤ) :
    boxLabelText label count = specLabelText label count := by
  unfold boxLabelText specLabelText
  rw [pySplitDD_headD]

/-!  ## Anchor lemmas  -/

theorem getAttr_dirStr (b : BoxObj) (d : Dir) :
    b.getAttr d.str = some (b.anchor d) := by
  cases d <;> rfl

/-!  ## Aggregation-loop lemmas  -/

theorem reasonsFold_total_count : ∀ (rs : List (String × ℕ)) (acc : GenAcc),
    (reasonsFold acc rs).total_count = acc.total_count := by
  intro rs
  induction rs with
  | nil => intro acc; rfl
  | cons rc rest ih =>
      intro acc
      simp only [reasonsFold, List.foldl_cons] at *
      exact ih _

theorem reasonsFold_label : ∀ (rs : List (String × ℕ)) (acc : GenAcc),
    (reasonsFold acc rs).label = acc.label ++ joinLines (rs.map bulletLine) := by
  intro rs
  induction rs with
  | nil => intro acc; simp [reasonsFold, joinLines]
  | cons rc rest ih =>
      intro acc
      simp only [reasonsFold, List.foldl_cons, List.map_cons, joinLines] at *
      rw [ih]
      simp [bulletLine, String.append_assoc]

theorem subsetsFold_of_forall_ne (dt target : String) :
    ∀ (subsets : List (String × List (String × ℕ))) (acc : GenAcc),
    (∀ p ∈ subsets, p.1 ≠ target) →
    subsetsFold dt target acc subsets = acc := by
  intro subsets
  induction subsets with
  | nil => intro acc _; rfl
  | cons kv rest ih =>
      intro acc h
      simp only [subsetsFold, List.foldl_cons, if_neg (h kv (by simp))]
      exact ih acc fun p hp => h p (by simp [hp])

/-- When the target subset is present (under distinct keys), the loop over
the subsets of one category performs exactly one matching step: it sets
`total_count` to the sum of the reason counts, appends the header line and
the bulleted lines. -/
theorem subsetsFold_of_lookup (dt target : String)
    (subsets : List (String × List (String × ℕ))) (reasons : List (String × ℕ))
    (acc : GenAcc) (hnd : keysNodup subsets)
    (h : dlookup subsets target = some reasons) :
    subsetsFold dt target acc subsets =
      reasonsFold
        { total_count := some ((reasons.map Prod.snd).sum)
          max_label_length :=
            max acc.max_label_length (headerLine dt ((reasons.map Prod.snd).sum)).length
          label := acc.label ++ headerLine dt ((reasons.map Prod.snd).sum) }
        reasons := by
  induction subsets generalizing acc with
  | nil => simp [dlookup] at h
  | cons kv rest ih =>
      obtain ⟨k1, v1⟩ := kv
      simp only [keysNodup, List.map_cons, List.nodup_cons] at hnd
      by_cases h1 : k1 = target
      · subst h1
        simp [dlookup] at h
        subst h
        have hrest : ∀ p ∈ rest, p.1 ≠ k1 := by
          intro p hp he
          exact hnd.1 (he ▸ List.mem_map_of_mem Prod.fst hp)
        have step : subsetsFold dt k1 acc ((k1, v1) :: rest)
            = subsetsFold dt k1
                (reasonsFold
                  { max_label_length :=
                      max acc.max_label_length (headerLine dt ((v1.map Prod.snd).sum)).length
                    label := acc.label ++ headerLine dt ((v1.map Prod.snd).sum)
                    total_count := some ((v1.map Prod.snd).sum) }
                  v1) rest := by
          simp [subsetsFold, headerLine]
        rw [step, subsetsFold_of_forall_ne dt k1 rest _ hrest]
      · simp [dlookup, h1] at h
        simp only [subsetsFold, List.foldl_cons, if_neg h1]
        exact ih acc hnd.2 h

/-!  ## Claim theorems  -/

/-- Claim C1. After a successful `add_consort_data(K, …)` call, a second
`add_consort_data` call with the same key `K` — whatever its other
arguments or backend — raises the duplicate-key `ValueError`, and the
failing call leaves all diagram state (`boxes_data`, `boxes_obj` and the
drawing included) unchanged: it returns exactly the pre-call state. -/
theorem add_consort_data_duplicate_key
    (bk bk' : Backend) (st st' : ConsortState) (K : String) (c c' : ℤ)
    (x y x' y' : ℚ) (w h w' h' : Option ℚ)
    (hsucc : add_consort_data bk st K c x y w h = (st', none)) :
    add_consort_data bk' st' K c' x' y' w' h'
      = (st', some (.valueError (K ++ " already exists in consort_data."))) := by
  by_cases hk : (dlookup st.boxes_data K).isNone
  · simp only [add_consort_data, hk, if_true] at hsucc
    have hdata : st'.boxes_data = dinsert st.boxes_data K (c, x, y) := by
      have h2 := congrArg (fun p => p.1.boxes_data) hsucc
      simpa [pushEl] using h2.symm
    have hne : ¬ (dlookup st'.boxes_data K).isNone = true := by
      rw [hdata, dlookup_dinsert_self]
      simp
    simp [add_consort_data, hne]
  · simp only [add_consort_data, hk, if_false] at hsucc
    exact absurd (congrArg Prod.snd hsucc) (by simp)

theorem add_consort_data_duplicate_key_witness :
    add_consort_data unitBackend
        (add_consort_data unitBackend consortInit "Box 1" 10 5 2 none none).1
        "Box 1" 11 0 0 none none
      = ((add_consort_data unitBackend consortInit "Box 1" 10 5 2 none none).1,
         some (.valueError ("Box 1" ++ " already exists in consort_data."))) :=
  add_consort_data_duplicate_key unitBackend unitBackend consortInit
    (add_consort_data unitBackend consortInit "Box 1" 10 5 2 none none).1
    "Box 1" 10 11 5 2 0 0 none none none none rfl

/-- Claim C2. For every key and integer count, the label of a box created by
`_create_box` (as `add_consort_data` does) and the label stored back by a
successful `update_label` both equal the format of the spec: the portion of the
key before the first `"--"`, then `" (n = "`, the count, and `")"`. -/
theorem box_label_format (bk : Backend) (st : ConsortState) (key : String)
    (count : ℤ) (x y : ℚ) (w h : Option ℚ) (b : BoxObj)
    (hb : dlookup st.boxes_obj (normalize key) = some b) :
    (_create_box bk st key count x y w h).labelText = specLabelText key count
    ∧ dlookup ((update_label st key count).1).boxes_obj (normalize key)
        = some { b with labelText := specLabelText key count } := by
  constructor
  · simp [_create_box, boxLabelText_eq_spec]
  · simp [update_label, hb, dlookup_dinsert_self, boxLabelText_eq_spec]

theorem box_label_format_witness :
    (_create_box unitBackend stTwoBoxes "Screened--A" 99 0 10 none none).labelText
        = specLabelText "Screened--A" 99
    ∧ dlookup ((update_label stTwoBoxes "Screened--A" 99).1).boxes_obj
        (normalize "Screened--A")
        = some { boxA with labelText := specLabelText "Screened--A" 99 } :=
  box_label_format unitBackend stTwoBoxes "Screened--A" 99 0 10 none none boxA rfl

/-- Claim C3 counterexample. `"Box A"` and `"box a"` normalize to the same
key, yet after `add_consort_data("Box A", …)` succeeds, a subsequent
`add_consort_data("box a", …)` does *not* fail as a duplicate insertion —
it succeeds (`boxes_data` is keyed by the raw key, not the normalized
one), refuting the claim at this input. -/
theorem add_consort_data_normalized_duplicate_cex :
    normalize "Box A" = normalize "box a"
    ∧ "Box A" ≠ "box a"
    ∧ (add_consort_data unitBackend consortInit "Box A" 1 0 0 none none).2 = none
    ∧ (add_consort_data unitBackend
        (add_consort_data unitBackend consortInit "Box A" 1 0 0 none none).1
        "box a" 2 3 4 none none).2 = none := by
  refine ⟨rfl, by decide, rfl, rfl⟩

/-- Claim C3 amended. Box records are stored in `boxes_data` under the *raw*
key and in `boxes_obj` under the normalized key, and the duplicate check
uses the raw key: when `K1 ≠ K2` normalize to the same string and neither
raw key is present, `add_consort_data(K1, …)` succeeds, a subsequent
`add_consort_data(K2, …)` also succeeds (no duplicate failure), and the
second call overwrites the shared `boxes_obj` entry with its own box. -/
theorem add_consort_data_raw_key_namespace
    (bk bk' : Backend) (st st1 : ConsortState) (K1 K2 : String) (c1 c2 : ℤ)
    (x1 y1 x2 y2 : ℚ) (w1 h1 w2 h2 : Option ℚ)
    (hnorm : normalize K1 = normalize K2) (hne : K2 ≠ K1)
    (hK2 : dlookup st.boxes_data K2 = none)
    (hstep : add_consort_data bk st K1 c1 x1 y1 w1 h1 = (st1, none)) :
    (add_consort_data bk' st1 K2 c2 x2 y2 w2 h2).2 = none
    ∧ dlookup (add_consort_data bk' st1 K2 c2 x2 y2 w2 h2).1.boxes_obj
        (normalize K1)
      = some (_create_box bk' st1 K2 c2 x2 y2
          (some (w2.getD st1.box_dimension.1)) (some (h2.getD st1.box_dimension.2))) := by
  by_cases hk : (dlookup st.boxes_data K1).isNone
  · simp only [add_consort_data, hk, if_true] at hstep
    have hdata : st1.boxes_data = dinsert st.boxes_data K1 (c1, x1, y1) := by
      have h2 := congrArg (fun p => p.1.boxes_data) hstep
      simpa [pushEl] using h2.symm
    have hnone : (dlookup st1.boxes_data K2).isNone = true := by
      rw [hdata, dlookup_dinsert_ne _ _ _ _ hne, hK2]
      rfl
    constructor
    · simp [add_consort_data, hnone]
    · simp only [add_consort_data, hnone, if_true]
      rw [hnorm]
      simp [pushEl, dlookup_dinsert_self]
  · simp only [add_consort_data, hk, if_false] at hstep
    exact absurd (congrArg Prod.snd hstep) (by simp)

theorem add_consort_data_raw_key_namespace_witness :
    (add_consort_data unitBackend
        (add_consort_data unitBackend consortInit "Box A" 1 0 0 none none).1
        "box a" 2 3 4 none none).2 = none
    ∧ dlookup (add_consort_data unitBackend
        (add_consort_data unitBackend consortInit "Box A" 1 0 0 none none).1
        "box a" 2 3 4 none none).1.boxes_obj (normalize "Box A")
      = some (_create_box unitBackend
          (add_consort_data unitBackend consortInit "Box A" 1 0 0 none none).1
          "box a" 2 3 4 (some 14) (some 1)) :=
  add_consort_data_raw_key_namespace unitBackend unitBackend consortInit
    (add_consort_data unitBackend consortInit "Box A" 1 0 0 none none).1
    "Box A" "box a" 1 2 0 0 3 4 none none none none rfl (by decide) rfl rfl

/-- Claim C5. `add_arrow` with two literal coordinate endpoints fails (with
the invalid-geometry `ValueError`) exactly when the coordinates share no
axis; when they share exactly one axis a straight arrow is added to the
drawing and no error is raised. -/
theorem add_arrow_literal_geometry (st : ConsortState) (x1 y1 x2 y2 : ℚ) :
    ((add_arrow st (.float x1, .float y1) (.float x2, .float y2)).2.isSome
        ↔ (x1 ≠ x2 ∧ y1 ≠ y2))
    ∧ ((x1 = x2 ∧ y1 ≠ y2) ∨ (x1 ≠ x2 ∧ y1 = y2) →
        ∃ a : ArrowShape,
          add_arrow st (.float x1, .float y1) (.float x2, .float y2)
            = (pushEl st (.arrowEl a), none)) := by
  constructor
  · by_cases h1 : x1 = x2 <;> by_cases h2 : y1 = y2 <;> simp [add_arrow, h1, h2]
  · rintro (⟨h1, h2⟩ | ⟨h1, h2⟩)
    · exact ⟨.vertTo ⟨x1, y1⟩ ⟨x2, y2⟩, by simp [add_arrow, h1, h2]⟩
    · exact ⟨.horizTo ⟨x1, y1⟩ ⟨x2, y2⟩, by simp [add_arrow, h1, h2]⟩

theorem add_arrow_literal_geometry_witness :
    ((add_arrow consortInit (.float 0, .float 10) (.float 3, .float 7)).2.isSome
        ↔ ((0 : ℚ) ≠ 3 ∧ (10 : ℚ) ≠ 7))
    ∧ (∃ a : ArrowShape,
        add_arrow consortInit (.float 0, .float 10) (.float 0, .float 5)
          = (pushEl consortInit (.arrowEl a), none)) :=
  ⟨(add_arrow_literal_geometry consortInit 0 10 3 7).1,
   (add_arrow_literal_geometry consortInit 0 10 0 5).2 (Or.inl ⟨rfl, by decide⟩)⟩

/-- Claim C6. For previously added boxes and compass directions, `add_arrow`
with two `(label, direction)` endpoints adds a connector running from the
anchor of the start box in the start direction to the anchor of the end
box in the end direction — the same coordinates `get_coordinates` returns for those
labels and directions. -/
theorem add_arrow_box_to_box (st : ConsortState) (l1 l2 : String)
    (d1 d2 : Dir) (b1 b2 : BoxObj)
    (h1 : dlookup st.boxes_obj (normalize l1) = some b1)
    (h2 : dlookup st.boxes_obj (normalize l2) = some b2) :
    add_arrow st (.str l1, .str d1.str) (.str l2, .str d2.str)
      = (pushEl st (.arrowEl (.segment (b1.anchor d1) (b2.anchor d2))), none)
    ∧ get_coordinates st l1 d1.str = .ok ((b1.anchor d1).x, (b1.anchor d1).y)
    ∧ get_coordinates st l2 d2.str = .ok ((b2.anchor d2).x, (b2.anchor d2).y) := by
  refine ⟨?_, ?_, ?_⟩ <;>
    simp [add_arrow, get_coordinates, h1, h2, getAttr_dirStr]

theorem add_arrow_box_to_box_witness :
    add_arrow stTwoBoxes (.str "Screened--A", .str Dir.S.str)
        (.str "Excluded", .str Dir.N.str)
      = (pushEl stTwoBoxes (.arrowEl (.segment (boxA.anchor .S) (boxB.anchor .N))), none)
    ∧ get_coordinates stTwoBoxes "Screened--A" Dir.S.str
        = .ok ((boxA.anchor .S).x, (boxA.anchor .S).y)
    ∧ get_coordinates stTwoBoxes "Excluded" Dir.N.str
        = .ok ((boxB.anchor .N).x, (boxB.anchor .N).y) :=
  add_arrow_box_to_box stTwoBoxes "Screened--A" "Excluded" .S .N boxA boxB rfl rfl

/-- Claim C7. For a mixed `add_arrow` call — one endpoint a `(label,
direction)` pair for a previously added box, the other a literal float
coordinate pair — the connector is directional with orientation given by
the compass direction (E/W horizontal, N/S vertical), anchored per the
source, and its length is the absolute difference between the literal
coordinate and the coordinate of the box anchor on that axis divided by the
configured unit scale. -/
theorem add_arrow_mixed (st : ConsortState) (l : String) (d : Dir) (b : BoxObj)
    (x y : ℚ) (hb : dlookup st.boxes_obj (normalize l) = some b) :
    (∃ t : Travel,
      add_arrow st (.str l, .str d.str) (.float x, .float y)
        = (pushEl st (.arrowEl (.directional (b.anchor d) t
            (|axisCoord d x y - axisCoord d (b.anchor d).x (b.anchor d).y| / st.unit))),
           none)
      ∧ t.orientation = d.orientation)
    ∧ (∃ t : Travel,
      add_arrow st (.float x, .float y) (.str l, .str d.str)
        = (pushEl st (.arrowEl (.directional ⟨x, y⟩ t
            (|axisCoord d x y - axisCoord d (b.anchor d).x (b.anchor d).y| / st.unit))),
           none)
      ∧ t.orientation = d.orientation) := by
  cases d with
  | E => exact ⟨⟨.right, by simp [add_arrow, hb, Dir.str, BoxObj.anchor, axisCoord], rfl⟩,
               ⟨.left, by simp [add_arrow, hb, Dir.str, BoxObj.anchor, axisCoord], rfl⟩⟩
  | S => exact ⟨⟨.down, by simp [add_arrow, hb, Dir.str, BoxObj.anchor, axisCoord], rfl⟩,
               ⟨.up, by simp [add_arrow, hb, Dir.str, BoxObj.anchor, axisCoord], rfl⟩⟩
  | W => exact ⟨⟨.left, by simp [add_arrow, hb, Dir.str, BoxObj.anchor, axisCoord], rfl⟩,
               ⟨.right, by simp [add_arrow, hb, Dir.str, BoxObj.anchor, axisCoord], rfl⟩⟩
  | N => exact ⟨⟨.up, by simp [add_arrow, hb, Dir.str, BoxObj.anchor, axisCoord], rfl⟩,
               ⟨.down, by simp [add_arrow, hb, Dir.str, BoxObj.anchor, axisCoord], rfl⟩⟩

theorem add_arrow_mixed_witness :
    (∃ t : Travel,
      add_arrow stTwoBoxes (.str "Screened--A", .str Dir.S.str) (.float 3, .float 7)
        = (pushEl stTwoBoxes (.arrowEl (.directional (boxA.anchor .S) t
            (|axisCoord .S 3 7 - axisCoord .S (boxA.anchor .S).x (boxA.anchor .S).y|
              / stTwoBoxes.unit))), none)
      ∧ t.orientation = Dir.S.orientation)
    ∧ (∃ t : Travel,
      add_arrow stTwoBoxes (.float 3, .float 7) (.str "Screened--A", .str Dir.S.str)
        = (pushEl stTwoBoxes (.arrowEl (.directional ⟨3, 7⟩ t
            (|axisCoord .S 3 7 - axisCoord .S (boxA.anchor .S).x (boxA.anchor .S).y|
              / stTwoBoxes.unit))), none)
      ∧ t.orientation = Dir.S.orientation) :=
  add_arrow_mixed stTwoBoxes "Screened--A" .S boxA 3 7 rfl

/-- Claim C8. For any label whose normalized form is not registered in
`boxes_obj`, each operation that looks a box up by label — `add_arrow`
with a `(label, direction)` endpoint in any of its three label-using
branches, `get_coordinates`, and `update_label` — fails with the
unknown-key `KeyError` and returns the diagram state unchanged. -/
theorem unknown_key_lookups (st : ConsortState) (l : String)
    (habs : dlookup st.boxes_obj (normalize l) = none) :
    (∀ d l2 d2 : String,
      add_arrow st (.str l, .str d) (.str l2, .str d2)
        = (st, some (.keyError (normalize l))))
    ∧ (∀ d d2 l1 : String, ∀ b1 : BoxObj,
        dlookup st.boxes_obj (normalize l1) = some b1 →
        add_arrow st (.str l1, .str d) (.str l, .str d2)
          = (st, some (.keyError (normalize l))))
    ∧ (∀ d : String, ∀ x y : ℚ,
        add_arrow st (.str l, .str d) (.float x, .float y)
          = (st, some (.keyError (normalize l))))
    ∧ (∀ d : String, ∀ x y : ℚ,
        add_arrow st (.float x, .float y) (.str l, .str d)
          = (st, some (.keyError (normalize l))))
    ∧ (∀ anchor : String,
        get_coordinates st l anchor = .error (.keyError (normalize l)))
    ∧ (∀ count : ℤ, update_label st l count = (st, some (.keyError (normalize l)))) := by
  refine ⟨?_, ?_, ?_, ?_, ?_, ?_⟩ <;> intros <;>
    simp [add_arrow, get_coordinates, update_label, habs, *]

theorem unknown_key_lookups_witness :
    add_arrow consortInit (.str "Ghost", .str "S") (.float 0, .float 1)
      = (consortInit, some (.keyError (normalize "Ghost")))
    ∧ get_coordinates consortInit "Ghost" "N"
        = .error (.keyError (normalize "Ghost"))
    ∧ update_label consortInit "Ghost" 3
        = (consortInit, some (.keyError (normalize "Ghost"))) :=
  ⟨(unknown_key_lookups consortInit "Ghost" rfl).2.2.1 "S" 0 1,
   (unknown_key_lookups consortInit "Ghost" rfl).2.2.2.2.1 "N",
   (unknown_key_lookups consortInit "Ghost" rfl).2.2.2.2.2 3⟩

/-- Claim C9. An `add_arrow` call whose endpoint components match none of
the four supported `isinstance` combinations — e.g. integer rather than
float literals, or an endpoint mixing a string with a number — returns
normally: no connector is added, no error is raised, the state is
returned unchanged. -/
theorem add_arrow_unsupported_combo (st : ConsortState) (a b c d : PyVal)
    (h : supportedCombo a b c d = false) :
    add_arrow st (a, b) (c, d) = (st, none) := by
  cases a <;> cases b <;> cases c <;> cases d <;>
    simp_all [supportedCombo, PyVal.isStr, PyVal.isFloat, add_arrow]

theorem add_arrow_unsupported_combo_witness :
    supportedCombo (.int 10) (.int 5) (.int 20) (.int 5) = false
    ∧ add_arrow consortInit (.int 10, .int 5) (.int 20, .int 5)
        = (consortInit, none)
    ∧ add_arrow consortInit (.str "Box 1", .float 2) (.float 10, .float 5)
        = (consortInit, none) :=
  ⟨rfl,
   add_arrow_unsupported_combo consortInit (.int 10) (.int 5) (.int 20) (.int 5) rfl,
   add_arrow_unsupported_combo consortInit (.str "Box 1") (.float 2)
     (.float 10) (.float 5) rfl⟩

/-!  ## Other-data helper lemmas  -/

/-- Under the split hypothesis (key has at most one `"--"`),
`add_other_data` is exactly the guarded three-level insert at
`(category, subset, reason)`. -/
theorem add_other_data_eq_insert (st : ConsortState) (cat key reason subset : String)
    (n : ℕ)
    (hsplit : (hasDD key.data = false ∧ reason = key ∧ subset = "1")
            ∨ (hasDD key.data = true ∧ pySplitDD key.data = [reason, subset])) :
    add_other_data st cat key n = insertOtherTriple st key cat subset reason n := by
  rcases hsplit with ⟨h1, h2, h3⟩ | ⟨h1, h2⟩
  · subst h2; subst h3
    simp [add_other_data, h1]
  · simp [add_other_data, h1, h2]

/-- The guarded three-level insert: duplicate detection is exactly
existence of the `(category, subset, reason)` triple; a failing call
returns the state unchanged; a successful call records `n` at the
triple. -/
theorem insertOtherTriple_spec (st : ConsortState) (key cat subset reason : String)
    (n : ℕ) :
    ((insertOtherTriple st key cat subset reason n).2
        = if tripleCount st cat subset reason = none then none
          else some (.valueError (key ++ " already exists.")))
    ∧ (tripleCount st cat subset reason ≠ none →
        (insertOtherTriple st key cat subset reason n).1 = st)
    ∧ (tripleCount st cat subset reason = none →
        tripleCount (insertOtherTriple st key cat subset reason n).1 cat subset reason
          = some n) := by
  cases h1 : dlookup st.other_data cat with
  | none =>
      simp [insertOtherTriple, tripleCount, h1, dlookup_dinsert_self, dlookup]
  | some subsets =>
      cases h2 : dlookup subsets subset with
      | none =>
          simp [insertOtherTriple, tripleCount, h1, h2, dlookup_dinsert_self, dlookup]
      | some reasons =>
          cases h3 : dlookup reasons reason with
          | none =>
              simp [insertOtherTriple, tripleCount, h1, h2, h3, dlookup_dinsert_self]
          | some c =>
              simp [insertOtherTriple, tripleCount, h1, h2, h3]

/-- Recording a new reason under an existing `(category, subset)` is
additively reflected in the total the other-box aggregation computes for
that `(category, subset)`. -/
theorem insertOtherTriple_total (st : ConsortState) (key cat subset reason : String)
    (n : ℕ) (subsets : List (String × List (String × ℕ)))
    (reasons : List (String × ℕ))
    (hcat : dlookup st.other_data cat = some subsets)
    (hsub : dlookup subsets subset = some reasons)
    (hnd : keysNodup subsets)
    (hre : dlookup reasons reason = none) :
    (generateAcc (insertOtherTriple st key cat subset reason n).1 [cat] subset).total_count
      = some ((reasons.map Prod.snd).sum + n) := by
  simp only [insertOtherTriple, hcat, hsub, hre]
  have hkey : dlookup
      (dinsert st.other_data cat (dinsert subsets subset (dinsert reasons reason n))) cat
      = some (dinsert subsets subset (dinsert reasons reason n)) :=
    dlookup_dinsert_self _ _ _
  simp only [generateAcc, List.foldl_cons, List.foldl_nil, hkey, Option.getD_some]
  rw [subsetsFold_of_lookup cat subset _ _ _
    (keysNodup_dinsert _ _ _ hnd) (dlookup_dinsert_self _ _ _)]
  rw [reasonsFold_total_count]
  rw [dinsert_of_lookup_none _ _ _ hre]
  simp

theorem foldl_max_pos : ∀ (l : List ℕ) (acc : ℕ), 0 < acc → 0 < l.foldl max acc := by
  intro l
  induction l with
  | nil => intro acc h; exact h
  | cons a rest ih =>
      intro acc h
      exact ih _ (lt_of_lt_of_le h (le_max_left _ _))

theorem parentLength_pos (dt : String) (rest : List String) (tc : Option ℕ) :
    0 < parentLength (dt :: rest) tc := by
  unfold parentLength
  simp only [List.map_cons, List.foldl_cons]
  apply foldl_max_pos
  have h2 : (0 : ℕ) < (")\n" : String).length := by decide
  have h3 : 0 < (dt ++ " (n = " ++ pyStrOptNat tc ++ ")\n").length := by
    rw [String.length_append]
    omega
  exact lt_max_of_lt_right h3

/-- The only errors `_generate_other_box` can produce: the empty-sequence
`max()` failure and division by zero. -/
theorem _generate_other_box_errors (bk : Backend) (st : ConsortState)
    (data_types : List String) (target_set : String) (x y w h ratio : ℚ)
    (e : PyError)
    (hg : _generate_other_box bk st data_types target_set x y w h ratio = .error e) :
    e = .valueError "max() arg is an empty sequence" ∨ e = .zeroDivisionError := by
  cases data_types with
  | nil =>
      simp only [_generate_other_box, Except.error.injEq] at hg
      exact Or.inl hg.symm
  | cons dt rest =>
      by_cases hc : parentLength (dt :: rest)
          (generateAcc st (dt :: rest) target_set).total_count = 0 ∨ ratio = 0
      · simp only [_generate_other_box, if_pos hc, Except.error.injEq] at hg
        exact Or.inr hg.symm
      · simp only [_generate_other_box, if_neg hc] at hg
        exact absurd hg (by simp)

/-- With a nonempty category list and a nonzero ratio,
`_generate_other_box` succeeds. -/
theorem _generate_other_box_ok (bk : Backend) (st : ConsortState)
    (dt : String) (rest : List String) (target_set : String) (x y w h ratio : ℚ)
    (hr : ratio ≠ 0) :
    ∃ box : BoxObj,
      _generate_other_box bk st (dt :: rest) target_set x y w h ratio = .ok box := by
  have hpl := parentLength_pos dt rest (generateAcc st (dt :: rest) target_set).total_count
  have hcond : ¬(parentLength (dt :: rest)
      (generateAcc st (dt :: rest) target_set).total_count = 0 ∨ ratio = 0) := by
    push_neg
    exact ⟨hpl.ne', hr⟩
  simp only [_generate_other_box, if_neg hcond]
  exact ⟨_, rfl⟩

/-!  ## Claim theorems for other data  -/

/-- Claim C4 counterexample. With an empty tally store, the triple for the
key `"a--b--c"` does not exist, yet `add_other_data` raises an error: the
two-name unpacking of a three-part split fails — refuting, at this input,
the claim that every key splits into a `(reason, subset)` pair and that
an error is raised only for an existing triple. -/
theorem add_other_data_multi_sep_cex :
    tripleCount consortInit "Reasons" "b" "a" = none
    ∧ (add_other_data consortInit "Reasons" "a--b--c" 3).2
        = some (.valueError "too many values to unpack (expected 2)")
    ∧ (add_other_data consortInit "Reasons" "a--b--c" 3).1 = consortInit :=
  ⟨rfl, rfl, rfl⟩

/-- Claim C4 amended. For any category, data frame, and key containing *at
most one* `"--"`: `add_other_data` splits the key at `"--"` into
`(reason, subset)` (subset defaulting to `"1"` when no `"--"` is present);
it raises the duplicate-key error iff the exact `(category, subset,
reason)` triple already exists, leaving the state unchanged in that case;
otherwise the count is recorded at the triple, and a new reason under an
existing `(category, subset)` is additively reflected in the total the
other-data box renders in its header for that `(category, subset)`. -/
theorem add_other_data_tally_spec (st : ConsortState)
    (cat key reason subset : String) (n : ℕ)
    (hsplit : (hasDD key.data = false ∧ reason = key ∧ subset = "1")
            ∨ (hasDD key.data = true ∧ pySplitDD key.data = [reason, subset])) :
    ((add_other_data st cat key n).2
        = if tripleCount st cat subset reason = none then none
          else some (.valueError (key ++ " already exists.")))
    ∧ (tripleCount st cat subset reason ≠ none →
        (add_other_data st cat key n).1 = st)
    ∧ (tripleCount st cat subset reason = none →
        tripleCount (add_other_data st cat key n).1 cat subset reason = some n)
    ∧ (∀ (subsets : List (String × List (String × ℕ)))
        (reasons : List (String × ℕ)),
        dlookup st.other_data cat = some subsets →
        dlookup subsets subset = some reasons →
        keysNodup subsets →
        dlookup reasons reason = none →
        (generateAcc (add_other_data st cat key n).1 [cat] subset).total_count
          = some ((reasons.map Prod.snd).sum + n)) := by
  rw [add_other_data_eq_insert st cat key reason subset n hsplit]
  obtain ⟨hdup, hkeep, hrec⟩ := insertOtherTriple_spec st key cat subset reason n
  refine ⟨hdup, hkeep, hrec, ?_⟩
  intro subsets reasons hcat hsub hnd hre
  exact insertOtherTriple_total st key cat subset reason n subsets reasons
    hcat hsub hnd hre

theorem add_other_data_tally_spec_witness :
    ((add_other_data stOneTally "Excl" "new" 3).2
        = if tripleCount stOneTally "Excl" "1" "new" = none then none
          else some (.valueError ("new" ++ " already exists.")))
    ∧ (tripleCount stOneTally "Excl" "1" "new" ≠ none →
        (add_other_data stOneTally "Excl" "new" 3).1 = stOneTally)
    ∧ (tripleCount stOneTally "Excl" "1" "new" = none →
        tripleCount (add_other_data stOneTally "Excl" "new" 3).1 "Excl" "1" "new"
          = some 3)
    ∧ (∀ (subsets : List (String × List (String × ℕ)))
        (reasons : List (String × ℕ)),
        dlookup stOneTally.other_data "Excl" = some subsets →
        dlookup subsets "1" = some reasons →
        keysNodup subsets →
        dlookup reasons "new" = none →
        (generateAcc (add_other_data stOneTally "Excl" "new" 3).1 ["Excl"] "1").total_count
          = some ((reasons.map Prod.snd).sum + 3)) :=
  add_other_data_tally_spec stOneTally "Excl" "new" "new" "1" 3
    (Or.inl ⟨rfl, rfl, rfl⟩)

/-- Claim C10 counterexample. With an empty `data_types` list,
`add_other_box` inserts nothing at all: the `max()` over the empty
sequence inside `_generate_other_box` raises, so "for every arguments
list it always inserts the generated box" fails at this input. -/
theorem add_other_box_empty_categories_cex :
    add_other_box unitBackend consortInit [] "1" 0 0 none none (3 / 2)
      = (consortInit, some (.valueError "max() arg is an empty sequence")) :=
  rfl

/-- Claim C10 amended. `add_other_box` never fails with a duplicate-key
error — its only failure modes are the empty-`data_types` `max()` error
and a zero-divisor `ratio`; whenever `data_types` is nonempty and `ratio`
is nonzero it succeeds, inserting the generated box into `boxes_obj` under
the derived key by plain dict assignment, overwriting any box already
registered there, so the new box is what subsequent lookups of that key
resolve. -/
theorem add_other_box_overwrites (bk : Backend) (st : ConsortState)
    (data_types : List String) (target_set : String) (x y : ℚ)
    (w h : Option ℚ) (ratio : ℚ) :
    ((add_other_box bk st data_types target_set x y w h ratio).2 = none
      ∨ (add_other_box bk st data_types target_set x y w h ratio).2
          = some (.valueError "max() arg is an empty sequence")
      ∨ (add_other_box bk st data_types target_set x y w h ratio).2
          = some .zeroDivisionError)
    ∧ (data_types ≠ [] → ratio ≠ 0 →
        ∃ box : BoxObj,
          add_other_box bk st data_types target_set x y w h ratio
            = ({ pushEl st (.boxEl box) with
                  boxes_obj := dinsert (pushEl st (.boxEl box)).boxes_obj
                    (String.intercalate "_" (data_types.map normalize) ++ "_" ++ target_set)
                    box },
               none)
          ∧ dlookup
              (add_other_box bk st data_types target_set x y w h ratio).1.boxes_obj
              (String.intercalate "_" (data_types.map normalize) ++ "_" ++ target_set)
            = some box) := by
  constructor
  · rcases hgen : _generate_other_box bk st data_types target_set x y
        (w.getD st.box_dimension.1) (h.getD st.box_dimension.2) ratio with e | box
    · rcases _generate_other_box_errors bk st data_types target_set x y
          (w.getD st.box_dimension.1) (h.getD st.box_dimension.2) ratio e hgen with h' | h' <;>
        simp [add_other_box, hgen, h']
    · simp [add_other_box, hgen]
  · intro hne hr
    obtain ⟨dt, rest, rfl⟩ : ∃ dt rest, data_types = dt :: rest := by
      cases data_types with
      | nil => exact absurd rfl hne
      | cons dt rest => exact ⟨dt, rest, rfl⟩
    obtain ⟨box, hgen⟩ := _generate_other_box_ok bk st dt rest target_set x y
      (w.getD st.box_dimension.1) (h.getD st.box_dimension.2) ratio hr
    refine ⟨box, ?_, ?_⟩
    · simp only [add_other_box, hgen]
    · simp only [add_other_box, hgen]
      exact dlookup_dinsert_self _ _ _

theorem add_other_box_overwrites_witness :
    (add_other_box unitBackend stOneTally ["Excl"] "1" 0 0 none none (3 / 2)).2 = none
    ∧ ∃ box : BoxObj,
        add_other_box unitBackend stOneTally ["Excl"] "1" 0 0 none none (3 / 2)
          = ({ pushEl stOneTally (.boxEl box) with
                boxes_obj := dinsert (pushEl stOneTally (.boxEl box)).boxes_obj
                  (String.intercalate "_" (["Excl"].map normalize) ++ "_" ++ "1") box },
             none)
        ∧ dlookup
            (add_other_box unitBackend stOneTally ["Excl"] "1" 0 0 none none (3 / 2)).1.boxes_obj
            (String.intercalate "_" (["Excl"].map normalize) ++ "_" ++ "1")
          = some box := by
  have h := (add_other_box_overwrites unitBackend stOneTally ["Excl"] "1" 0 0
    none none (3 / 2)).2 (by simp) (by norm_num)
  obtain ⟨box, h1, h2⟩ := h
  exact ⟨by rw [h1], box, h1, h2⟩

end Consort
